import Mathlib

/-
Verification of the Block Manager wrapper
(`validator/sawtooth_validator/journal/block_manager.py`) against its
natural-language specification.

The Python module is a thin wrapper over a native block-manager engine that is
not part of this repository: the wrapper marshals arguments, calls the native
library, and maps integer result codes to raised Python exceptions.  The
wrapper-side behaviour (error-code dispatch, marshalling of put entries,
iterator mechanics) is embedded directly from the source.  The native engine
and the external protobuf codec are modelled from the specification; every such
definition carries a doc comment starting `Modelled from the spec:`.
-/

set_option maxHeartbeats 1000000

namespace BlockManagerSpec

/-- Byte strings crossing the FFI boundary (Python `bytes`). -/
abbrev Bytes := List Nat

/-- Modelled from the spec: a Block is an immutable record containing its own
id, its predecessor's id, and an opaque payload (spec section 3); the concrete
protobuf `Block` message type is external to the repository. -/
structure Block where
  block_id : Bytes
  previous_block_id : Bytes
  payload : Bytes
deriving DecidableEq

/-- A length-prefixed field of the serialized form. -/
def fieldBytes (l : Bytes) : Bytes := l.length :: l

/-- Modelled from the spec: the external codec's serializer
(`Block.SerializeToString`) — the on-the-wire form is an opaque serialized
payload in which block id and predecessor id are fields (spec section 6). -/
def serializeToString (b : Block) : Bytes :=
  fieldBytes b.block_id ++ (fieldBytes b.previous_block_id ++ fieldBytes b.payload)

/-- Decode one length-prefixed field, returning it and the remaining bytes. -/
def parseField : Bytes → Option (Bytes × Bytes)
  | [] => none
  | n :: rest => if n ≤ rest.length then some (rest.take n, rest.drop n) else none

/-- Modelled from the spec: the external codec's parser
(`Block.ParseFromString`), inverse of `serializeToString`. -/
def blockParseFromString (bytes : Bytes) : Option Block := do
  let (bid, r1) ← parseField bytes
  let (pid, r2) ← parseField r1
  let (pl, r3) ← parseField r2
  if r3 = [] then some ⟨bid, pid, pl⟩ else none

theorem parseField_append (l t : Bytes) :
    parseField (fieldBytes l ++ t) = some (l, t) := by
  simp only [fieldBytes, List.cons_append, parseField, List.length_append]
  rw [if_pos (Nat.le_add_right _ _)]
  rw [List.take_left, List.drop_left]

/-- The codec round-trips: parsing a serialized block recovers the block. -/
theorem parse_serialize (b : Block) :
    blockParseFromString (serializeToString b) = some b := by
  have h3 : parseField (fieldBytes b.payload) = some (b.payload, []) := by
    simpa using parseField_append b.payload []
  simp [blockParseFromString, serializeToString, parseField_append, h3]

/-- The Python exceptions raised by the wrapper module: the four classes the
module defines, the builtin `TypeError` and `Exception`, and the iterator
protocol's `StopIteration`. -/
inductive PyExc where
  | typeError (msg : String)
  | stopIteration
  | missingPredecessor (msg : String)
  | missingPredecessorInBranch (msg : String)
  | missingInput (msg : String)
  | unknownBlock (msg : String)
  | exception (msg : String)
deriving DecidableEq

/-- The Python class name of a raised exception — the tag callers can match on. -/
def PyExc.tag : PyExc → String
  | .typeError _ => "TypeError"
  | .stopIteration => "StopIteration"
  | .missingPredecessor _ => "MissingPredecessor"
  | .missingPredecessorInBranch _ => "MissingPredecessorInBranch"
  | .missingInput _ => "MissingInput"
  | .unknownBlock _ => "UnknownBlock"
  | .exception _ => "Exception"

/-- The exception class name of a call outcome: `none` for a normal return. -/
def pyTag {α : Type} : Except PyExc α → Option String
  | .ok _ => none
  | .error e => some e.tag

namespace ErrorCode

def Success : Nat := 0

def NullPointerProvided : Nat := 0x01

def MissingPredecessor : Nat := 0x02

def MissingPredecessorInBranch : Nat := 0x03

def MissingInput : Nat := 0x04

def UnknownBlock : Nat := 0x05

def InvalidInputString : Nat := 0x06

def Error : Nat := 0x07

def InvalidPythonObject : Nat := 0x0F

def StopIteration : Nat := 0x11

end ErrorCode

/-- Embeds `_exec`: map the native result code to a normal return or a raised
exception, following the source's if/elif chain in order. -/
def execDispatch (res : Nat) : Except PyExc Unit :=
  if res = ErrorCode.Success then .ok ()
  else if res = ErrorCode.NullPointerProvided then
    .error (.typeError "Provided null pointer(s)")
  else if res = ErrorCode.StopIteration then .error .stopIteration
  else if res = ErrorCode.MissingPredecessor then
    .error (.missingPredecessor "Missing predecessor")
  else if res = ErrorCode.MissingPredecessorInBranch then
    .error (.missingPredecessorInBranch "Missing predecessor")
  else if res = ErrorCode.MissingInput then
    .error (.missingInput "Missing input to put method")
  else if res = ErrorCode.UnknownBlock then
    .error (.unknownBlock "Block was unknown")
  else if res = ErrorCode.InvalidInputString then
    .error (.typeError "Invalid block store name provided")
  else .error (.exception ("There was an unknown error: " ++ toString res))

/-- The error table exactly as claim C1 enumerates it, in the claim's own
order, mapping each nonzero code to the class of the condition the wrapper is
claimed to raise.  Stated from the claim's words, to be compared with the
source-embedded `execDispatch`. -/
def claimedTag (code : Nat) : String :=
  if code = 0x02 then "MissingPredecessor"
  else if code = 0x03 then "MissingPredecessorInBranch"
  else if code = 0x04 then "MissingInput"
  else if code = 0x05 then "UnknownBlock"
  else if code = 0x11 then "StopIteration"
  else if code = 0x01 ∨ code = 0x06 then "TypeError"
  else "Exception"

/-- Modelled from the spec: the native engine's state — the in-memory Pool of
(id, block, pin count) entries and the registered named backing Stores (spec
sections 2 and 3); the native engine itself is not part of this repository. -/
structure EngineState where
  pool : List (Bytes × Block × Nat)
  stores : List (String × List (Bytes × Block))
deriving DecidableEq

/-- Does the Pool hold an entry for the id? -/
def poolContains (st : EngineState) (id : Bytes) : Bool :=
  st.pool.any (fun e => e.1 = id)

/-- Does any registered Store hold an entry for the id? -/
def storesContain (st : EngineState) (id : Bytes) : Bool :=
  st.stores.any (fun s => s.2.any (fun e => e.1 = id))

/-- Modelled from the spec: an id resolves iff it is found in the Pool or in any
registered Store (spec section 4.1). -/
def resolvable (st : EngineState) (id : Bytes) : Bool :=
  poolContains st id || storesContain st id

/-- Modelled from the spec: the genesis "no predecessor" sentinel (spec
section 3). -/
def nullBlockId : Bytes := []

/-- Look a block up in the Pool. -/
def poolGet (st : EngineState) (id : Bytes) : Option (Block × Nat) :=
  (st.pool.find? (fun e => e.1 = id)).map (fun e => e.2)

/-- Look a block up in the Pool, then the Stores in registration order. -/
def lookupBlock (st : EngineState) (id : Bytes) : Option Block :=
  match poolGet st id with
  | some (b, _) => some b
  | none =>
    (st.stores.findSome? (fun s => (s.2.find? (fun e => e.1 = id)))).map
      (fun e => e.2)

/-- Embeds `_PutEntry`: the only data put transmits per block — the serialized
bytes and their length. -/
structure PutEntry where
  block_bytes : Bytes
  block_bytes_len : Nat
deriving DecidableEq

/-- Embeds `_PutEntry.new`: the recorded length is the length of the bytes. -/
def PutEntry.new (block_bytes : Bytes) : PutEntry :=
  ⟨block_bytes, block_bytes.length⟩

/-- Embeds the marshalling loop of `BlockManager.put`: one entry per block, in
branch order, each holding the codec serialization of that block. -/
def putEntries (branch : List Block) : List PutEntry :=
  branch.map (fun b => PutEntry.new (serializeToString b))

/-- Is the rest of the branch contiguous after the given previous block? -/
def contiguousAfter : Block → List Block → Bool
  | _, [] => true
  | prev, b :: rest =>
    (b.previous_block_id = prev.block_id) && contiguousAfter b rest

/-- Modelled from the spec: `put` validation (spec section 4.1) — empty input
is `MissingInput`; the first block's predecessor must be the genesis sentinel
or resolvable, else `MissingPredecessor`; every later block's predecessor must
equal the previous block's id, else `MissingPredecessorInBranch`.  Returns the
native result code. -/
def checkBranch (st : EngineState) (blocks : List Block) : Nat :=
  match blocks with
  | [] => ErrorCode.MissingInput
  | first :: rest =>
    if first.previous_block_id ≠ nullBlockId &&
        !(resolvable st first.previous_block_id) then
      ErrorCode.MissingPredecessor
    else if !(contiguousAfter first rest) then
      ErrorCode.MissingPredecessorInBranch
    else ErrorCode.Success

/-- Modelled from the spec: on success all blocks of the branch enter the Pool
with pin count zero (spec section 4.1). -/
def insertBranch (st : EngineState) (blocks : List Block) : EngineState :=
  { st with pool := st.pool ++ blocks.map (fun b => (b.block_id, b, 0)) }

/-- Parse every entry's bytes through the codec. -/
def parseEntries : List PutEntry → Option (List Block)
  | [] => some []
  | e :: rest => do
    let b ← blockParseFromString e.block_bytes
    let bs ← parseEntries rest
    pure (b :: bs)

/-- Modelled from the spec: the native `block_manager_put` — parses the
serialized entries, validates the branch without mutating state, and on
success inserts the whole branch atomically; on any failure the state is
unchanged (spec sections 4.1 and 7). -/
def block_manager_put (st : EngineState) (entries : List PutEntry) :
    Nat × EngineState :=
  match parseEntries entries with
  | none => (ErrorCode.Error, st)
  | some blocks =>
    let code := checkBranch st blocks
    if code = ErrorCode.Success then (code, insertBranch st blocks)
    else (code, st)

/-- Modelled from the spec: the native `block_manager_contains` — reports
whether the id resolves in Pool or any Store; read-only and always
successful (spec section 4.1). -/
def block_manager_contains (st : EngineState) (id : Bytes) : Nat × Bool :=
  (ErrorCode.Success, resolvable st id)

/-- Modelled from the spec: the native `block_manager_add_store` — rejects a
malformed (empty) or duplicate store name with `InvalidInputString` (spec
section 4.2). -/
def block_manager_add_store (st : EngineState) (name : String)
    (store : List (Bytes × Block)) : Nat × EngineState :=
  if name = "" || st.stores.any (fun s => s.1 = name) then
    (ErrorCode.InvalidInputString, st)
  else (ErrorCode.Success, { st with stores := st.stores ++ [(name, store)] })

/-- Modelled from the spec: the native `block_manager_ref_block` — increments
the pin count of a Pool-resident block; `UnknownBlock` if the id resolves
nowhere (spec section 4.1). -/
def block_manager_ref_block (st : EngineState) (id : Bytes) :
    Nat × EngineState :=
  if poolContains st id then
    (ErrorCode.Success,
      { st with
        pool := st.pool.map
          (fun e => if e.1 = id then (e.1, e.2.1, e.2.2 + 1) else e) })
  else if storesContain st id then (ErrorCode.Success, st)
  else (ErrorCode.UnknownBlock, st)

/-- Modelled from the spec: the native `block_manager_unref_block` — decrements
a positive pin count; a non-pinned or unknown id fails with `UnknownBlock`
rather than clamping (spec sections 4.1 and 8). -/
def block_manager_unref_block (st : EngineState) (id : Bytes) :
    Nat × EngineState :=
  match poolGet st id with
  | some (_, pin) =>
    if pin > 0 then
      (ErrorCode.Success,
        { st with
          pool := st.pool.map
            (fun e => if e.1 = id then (e.1, e.2.1, e.2.2 - 1) else e) })
    else (ErrorCode.UnknownBlock, st)
  | none => (ErrorCode.UnknownBlock, st)

/-- Modelled from the spec: the native `block_manager_persist` — moves a
Pool-resident block into the named Store; `UnknownBlock` if the id is not in
the Pool, an internal error if the store name is unregistered (spec
section 4.2). -/
def block_manager_persist (st : EngineState) (id : Bytes)
    (store_name : String) : Nat × EngineState :=
  match poolGet st id with
  | none => (ErrorCode.UnknownBlock, st)
  | some (b, _) =>
    if st.stores.any (fun s => s.1 = store_name) then
      (ErrorCode.Success,
        { pool := st.pool.filter (fun e => !(e.1 = id)),
          stores := st.stores.map
            (fun s => if s.1 = store_name then (s.1, s.2 ++ [(id, b)]) else s) })
    else (ErrorCode.Error, st)

namespace BlockManager

/-- Embeds `BlockManager.put`: marshal the branch into `_PutEntry` values, call
the native put, and dispatch the result code through `_exec`. -/
def put (st : EngineState) (branch : List Block) :
    Except PyExc Unit × EngineState :=
  let (code, st') := block_manager_put st (putEntries branch)
  (execDispatch code, st')

/-- Embeds `BlockManager.__contains__`: call the native contains and dispatch
the result code through `_exec`; on success return the out-parameter. -/
def containsOp (st : EngineState) (id : Bytes) :
    Except PyExc Bool × EngineState :=
  let (code, b) := block_manager_contains st id
  (match execDispatch code with
   | .ok _ => .ok b
   | .error e => .error e, st)

/-- Embeds `BlockManager.add_store`: call the native add_store and dispatch the
result code through `_exec`. -/
def add_store (st : EngineState) (name : String)
    (store : List (Bytes × Block)) : Except PyExc Unit × EngineState :=
  let (code, st') := block_manager_add_store st name store
  (execDispatch code, st')

/-- Embeds `BlockManager.ref_block`. -/
def ref_block (st : EngineState) (id : Bytes) :
    Except PyExc Unit × EngineState :=
  let (code, st') := block_manager_ref_block st id
  (execDispatch code, st')

/-- Embeds `BlockManager.unref_block`. -/
def unref_block (st : EngineState) (id : Bytes) :
    Except PyExc Unit × EngineState :=
  let (code, st') := block_manager_unref_block st id
  (execDispatch code, st')

/-- Embeds `BlockManager.persist`. -/
def persist (st : EngineState) (id : Bytes) (store_name : String) :
    Except PyExc Unit × EngineState :=
  let (code, st') := block_manager_persist st id store_name
  (execDispatch code, st')

end BlockManager

/-- Fuel bounding any traversal: one more than the number of blocks known. -/
def stateSize (st : EngineState) : Nat :=
  st.pool.length + (st.stores.map (fun s => s.2.length)).sum + 1

/-- Modelled from the spec: the single-branch walk — tip, then predecessor,
and so on, ending after the genesis block or at the first unresolvable
predecessor (spec section 4.4). -/
def branchChain (st : EngineState) : Nat → Bytes → List Block
  | 0, _ => []
  | fuel + 1, id =>
    match lookupBlock st id with
    | none => []
    | some b =>
      b :: (if b.previous_block_id = nullBlockId then []
            else branchChain st fuel b.previous_block_id)

/-- Modelled from the spec: the point-lookup walk — each requested id resolved
through Pool then Stores, ending at the first unresolvable id (spec
section 4.3). -/
def getChain (st : EngineState) : List Bytes → List Block
  | [] => []
  | id :: rest =>
    match lookupBlock st id with
    | none => []
    | some b => b :: getChain st rest

/-- Modelled from the spec: the branch-diff walk — blocks of tip's ancestry up
to, but not including, the first block also on exclude's ancestry (spec
section 4.5). -/
def branchDiffChain (st : EngineState) (tip exclude : Bytes) : List Block :=
  let excludeIds :=
    (branchChain st (stateSize st) exclude).map (fun b => b.block_id)
  (branchChain st (stateSize st) tip).takeWhile
    (fun b => !(excludeIds.contains b.block_id))

/-- One step a native cursor can take: produce a block, or hit an
unrecoverable error with the given nonzero code. -/
inductive CursorStep where
  | yieldStep (b : Block)
  | failStep (code : Nat)
deriving DecidableEq

/-- Modelled from the spec: a native traversal cursor — the steps still to
come, and whether the cursor has terminated.  A cursor that has reached the
end of data or an unrecoverable error terminates permanently (spec
section 7). -/
structure NativeCursor where
  pending : List CursorStep
  terminated : Bool
deriving DecidableEq

/-- Modelled from the spec: the native iterator-next call.  It returns a result
code plus an optional serialized payload: a terminated cursor reports the
`StopIteration` code; an exhausted cursor terminates and reports success with a
null payload vector; a yield step returns the codec serialization of the
block; an error step reports its code and terminates the cursor
permanently. -/
def nativeNext (c : NativeCursor) : (Nat × Option Bytes) × NativeCursor :=
  if c.terminated then ((ErrorCode.StopIteration, none), c)
  else
    match c.pending with
    | [] => ((ErrorCode.Success, none), { c with terminated := true })
    | .yieldStep b :: rest =>
      ((ErrorCode.Success, some (serializeToString b)), { c with pending := rest })
    | .failStep code :: rest => ((code, none), ⟨rest, true⟩)

/-- Modelled from the spec: the native iterator-drop call, releasing the
cursor's resources. -/
def nativeDrop (_ : NativeCursor) : Nat := ErrorCode.Success

/-- Modelled from the spec: the native `block_manager_get_iterator_new`. -/
def block_manager_get_iterator_new (st : EngineState) (ids : List Bytes) :
    Nat × NativeCursor :=
  (ErrorCode.Success, ⟨(getChain st ids).map CursorStep.yieldStep, false⟩)

/-- Modelled from the spec: the native `block_manager_branch_iterator_new`. -/
def block_manager_branch_iterator_new (st : EngineState) (tip : Bytes) :
    Nat × NativeCursor :=
  (ErrorCode.Success,
    ⟨(branchChain st (stateSize st) tip).map CursorStep.yieldStep, false⟩)

/-- Modelled from the spec: the native
`block_manager_branch_diff_iterator_new`. -/
def block_manager_branch_diff_iterator_new (st : EngineState)
    (tip exclude : Bytes) : Nat × NativeCursor :=
  (ErrorCode.Success,
    ⟨(branchDiffChain st tip exclude).map CursorStep.yieldStep, false⟩)

/-- Embeds `_BlockIterator`: the wrapper-side iterator object holds only the
native cursor pointer; `none` models a null `_c_iter_ptr`. -/
structure BlockIterator where
  c_iter_ptr : Option NativeCursor
deriving DecidableEq

/-- Embeds the `__init__` of the iterator subclasses: `_c_iter_ptr` starts
null and receives the cursor from the native constructor; when the native
constructor fails, `_exec` raises before the pointer is written, so the
half-constructed object keeps a null pointer. -/
def iterInit (nativeNew : Nat × NativeCursor) :
    Except PyExc Unit × BlockIterator :=
  match execDispatch nativeNew.1 with
  | .error e => (.error e, ⟨none⟩)
  | .ok _ => (.ok (), ⟨some nativeNew.2⟩)

/-- Embeds `BlockManager.get`: construct a `_GetBlockIterator`. -/
def BlockManager.get (st : EngineState) (ids : List Bytes) :
    Except PyExc Unit × BlockIterator :=
  iterInit (block_manager_get_iterator_new st ids)

/-- Embeds `BlockManager.branch`: construct a `_BranchIterator`. -/
def BlockManager.branch (st : EngineState) (tip : Bytes) :
    Except PyExc Unit × BlockIterator :=
  iterInit (block_manager_branch_iterator_new st tip)

/-- Embeds `BlockManager.branch_diff`: construct a `_BranchDiffIterator`. -/
def BlockManager.branch_diff (st : EngineState) (tip exclude : Bytes) :
    Except PyExc Unit × BlockIterator :=
  iterInit (block_manager_branch_diff_iterator_new st tip exclude)

/-- Embeds `_BlockIterator.__iter__`: `return self`. -/
def BlockIterator.iter (it : BlockIterator) : BlockIterator := it

/-- Embeds `_BlockIterator.__next__`.  Returns the call's outcome, the
iterator afterwards, and whether the native library was called: a null pointer
raises `StopIteration` without any native call; otherwise the native next runs,
its code is dispatched through `_exec`, a null result vector raises
`StopIteration`, and a payload is parsed through the codec. -/
def BlockIterator.next (it : BlockIterator) :
    Except PyExc Block × BlockIterator × Bool :=
  match it.c_iter_ptr with
  | none => (.error .stopIteration, it, false)
  | some c =>
    let ((code, vec), c') := nativeNext c
    let it' : BlockIterator := ⟨some c'⟩
    match execDispatch code with
    | .error e => (.error e, it', true)
    | .ok _ =>
      match vec with
      | none => (.error .stopIteration, it', true)
      | some payload =>
        match blockParseFromString payload with
        | some b => (.ok b, it', true)
        | none => (.error (.exception "Failed to parse block payload"), it', true)

/-- Embeds `_BlockIterator.__del__`: the native drop runs iff the cursor
pointer is non-null; `some code` records that the native drop was invoked. -/
def BlockIterator.del (it : BlockIterator) : Option Nat :=
  match it.c_iter_ptr with
  | some c => some (nativeDrop c)
  | none => none

/-- The iterator after n next-element calls. -/
def advance (it : BlockIterator) : Nat → BlockIterator
  | 0 => it
  | n + 1 => advance it.next.2.1 n

/-- The outcome of the (n+1)-th next-element call. -/
def resultAt (it : BlockIterator) (n : Nat) : Except PyExc Block :=
  (advance it n).next.1

/-- An iterator that can never again produce a block: null pointer or
terminated cursor. -/
def deadIterator (it : BlockIterator) : Bool :=
  match it.c_iter_ptr with
  | none => true
  | some c => c.terminated

/-! ### Helper lemmas -/

theorem execDispatch_ok_iff (code : Nat) :
    execDispatch code = Except.ok () ↔ code = ErrorCode.Success := by
  unfold execDispatch
  split_ifs with h1 h2 h3 h4 h5 h6 h7 h8 <;> simp_all

theorem parseEntries_putEntries (branch : List Block) :
    parseEntries (putEntries branch) = some branch := by
  induction branch with
  | nil => rfl
  | cons b rest ih =>
    have hstep : parseEntries (putEntries (b :: rest)) =
        (blockParseFromString (serializeToString b)).bind
          (fun x => (parseEntries (putEntries rest)).bind
            (fun bs => some (x :: bs))) := rfl
    rw [hstep]
    simp [parse_serialize, ih]

/-! ### Claim theorems -/

/-- Claim C1: every BlockManager operation (add_store, put, ref_block, unref_block,
persist, contains, iterator construction and next) routes its native result
code through the `_exec` dispatch, so the call returns normally iff the native
call returns the Success code 0; every nonzero code raises, at the point of
that call, exactly the condition the claim's table determines —
MissingPredecessor for 0x02, MissingPredecessorInBranch for 0x03, MissingInput
for 0x04, UnknownBlock for 0x05, StopIteration for 0x11, TypeError for 0x01
and 0x06, and a generic Exception for every other code — never silently
swallowed or deferred. -/
theorem C1_error_code_dispatch (code : Nat) (h : code ≠ ErrorCode.Success) :
    execDispatch ErrorCode.Success = Except.ok () ∧
    pyTag (execDispatch code) = some (claimedTag code) ∧
    (∀ st branch, (BlockManager.put st branch).1 =
      execDispatch (block_manager_put st (putEntries branch)).1) ∧
    (∀ st name store, (BlockManager.add_store st name store).1 =
      execDispatch (block_manager_add_store st name store).1) ∧
    (∀ st id, (BlockManager.ref_block st id).1 =
      execDispatch (block_manager_ref_block st id).1) ∧
    (∀ st id, (BlockManager.unref_block st id).1 =
      execDispatch (block_manager_unref_block st id).1) ∧
    (∀ st id sn, (BlockManager.persist st id sn).1 =
      execDispatch (block_manager_persist st id sn).1) ∧
    (∀ st id, pyTag (BlockManager.containsOp st id).1 =
      pyTag (execDispatch (block_manager_contains st id).1)) ∧
    (∀ n : Nat × NativeCursor, (iterInit n).1 = execDispatch n.1) ∧
    (∀ (it : BlockIterator) (c : NativeCursor) (e : PyExc),
      it.c_iter_ptr = some c → execDispatch (nativeNext c).1.1 = Except.error e →
      it.next.1 = Except.error e) := by
  refine ⟨rfl, ?_, fun st branch => rfl, fun st name store => rfl,
    fun st id => rfl, fun st id => rfl, fun st id sn => rfl, fun st id => rfl,
    ?_, ?_⟩
  · unfold execDispatch claimedTag
    simp only [ErrorCode.Success, ErrorCode.NullPointerProvided,
      ErrorCode.MissingPredecessor, ErrorCode.MissingPredecessorInBranch,
      ErrorCode.MissingInput, ErrorCode.UnknownBlock,
      ErrorCode.InvalidInputString, ErrorCode.StopIteration] at h ⊢
    split_ifs <;> first | rfl | (simp_all [pyTag, PyExc.tag])
  · intro n
    unfold iterInit
    cases hd : execDispatch n.1 <;> rfl
  · intro it c e hptr he
    cases hnc : nativeNext c with
    | mk res c2 =>
      cases res with
      | mk rcode vec =>
        rw [hnc] at he
        have he' : execDispatch rcode = Except.error e := he
        simp [BlockIterator.next, hptr, hnc, he']

/-- Witness for C1: dispatching the native code 0x07 raises the generic
Exception, as the table determines. -/
theorem C1_error_code_dispatch_witness :
    pyTag (execDispatch 0x07) = some "Exception" :=
  (C1_error_code_dispatch 0x07 (by decide)).2.1

/-- Claim C3: `__contains__` returns a boolean that is true iff the id resolves in
the Pool or any registered Store; it mutates nothing and never raises. -/
theorem C3_contains_pure (st : EngineState) (id : Bytes) :
    (BlockManager.containsOp st id).1 = Except.ok (resolvable st id) ∧
    (BlockManager.containsOp st id).2 = st ∧
    ((BlockManager.containsOp st id).1 = Except.ok true ↔
      (poolContains st id = true ∨ storesContain st id = true)) := by
  refine ⟨rfl, rfl, ?_⟩
  show Except.ok (resolvable st id) = Except.ok true ↔ _
  simp [resolvable, Bool.or_eq_true]

/-- Counterexample to C4: a malformed or duplicate store name (native code 0x06,
InvalidInputString) is raised as the builtin `TypeError`, the very same
exception class as a null-pointer error (code 0x01) — not as its own
distinguishable InvalidInputString condition, so callers cannot match on a
distinct tag. -/
theorem C4_counterexample :
    pyTag (execDispatch ErrorCode.InvalidInputString) = some "TypeError" ∧
    pyTag (execDispatch ErrorCode.NullPointerProvided) = some "TypeError" ∧
    execDispatch ErrorCode.InvalidInputString =
      Except.error (PyExc.typeError "Invalid block store name provided") :=
  ⟨rfl, rfl, rfl⟩

/-- Claim C4 as amended: MissingPredecessor, MissingPredecessorInBranch, MissingInput
and UnknownBlock each surface as their own distinct exception class, and every
unlisted code surfaces as the generic Exception; but InvalidInputString does
not get its own kind — a malformed or duplicate store name surfaces as the
builtin TypeError, indistinguishable by tag from NullPointerProvided. -/
theorem C4_amended_tagged_conditions :
    (pyTag (execDispatch ErrorCode.MissingPredecessor) =
        some "MissingPredecessor" ∧
      pyTag (execDispatch ErrorCode.MissingPredecessorInBranch) =
        some "MissingPredecessorInBranch" ∧
      pyTag (execDispatch ErrorCode.MissingInput) = some "MissingInput" ∧
      pyTag (execDispatch ErrorCode.UnknownBlock) = some "UnknownBlock" ∧
      pyTag (execDispatch ErrorCode.StopIteration) = some "StopIteration") ∧
    List.Nodup
      ["MissingPredecessor", "MissingPredecessorInBranch", "MissingInput",
        "UnknownBlock", "StopIteration", "TypeError", "Exception"] ∧
    pyTag (execDispatch ErrorCode.InvalidInputString) = some "TypeError" ∧
    pyTag (execDispatch ErrorCode.NullPointerProvided) = some "TypeError" ∧
    (∀ code, code ≠ ErrorCode.Success → code ≠ ErrorCode.NullPointerProvided →
      code ≠ ErrorCode.MissingPredecessor →
      code ≠ ErrorCode.MissingPredecessorInBranch →
      code ≠ ErrorCode.MissingInput → code ≠ ErrorCode.UnknownBlock →
      code ≠ ErrorCode.InvalidInputString → code ≠ ErrorCode.StopIteration →
      pyTag (execDispatch code) = some "Exception") := by
  refine ⟨⟨rfl, rfl, rfl, rfl, rfl⟩, by decide, rfl, rfl, ?_⟩
  intro code h0 h1 h2 h3 h4 h5 h6 h7
  simp only [ErrorCode.Success, ErrorCode.NullPointerProvided,
    ErrorCode.MissingPredecessor, ErrorCode.MissingPredecessorInBranch,
    ErrorCode.MissingInput, ErrorCode.UnknownBlock,
    ErrorCode.InvalidInputString, ErrorCode.StopIteration]
      at h0 h1 h2 h3 h4 h5 h6 h7
  unfold execDispatch
  simp only [ErrorCode.Success, ErrorCode.NullPointerProvided,
    ErrorCode.MissingPredecessor, ErrorCode.MissingPredecessorInBranch,
    ErrorCode.MissingInput, ErrorCode.UnknownBlock,
    ErrorCode.InvalidInputString, ErrorCode.StopIteration]
  split_ifs <;> simp_all [pyTag, PyExc.tag]

/-- Witness for amended C4: the unlisted native code 0x0F surfaces as the generic
Exception. -/
theorem C4_amended_witness : pyTag (execDispatch 0x0F) = some "Exception" :=
  C4_amended_tagged_conditions.2.2.2.2 0x0F (by decide) (by decide) (by decide)
    (by decide) (by decide) (by decide) (by decide) (by decide)

theorem resolvable_insertBranch (st : EngineState) (blocks : List Block)
    (b : Block) (hb : b ∈ blocks) :
    resolvable (insertBranch st blocks) b.block_id = true := by
  have hmem : (b.block_id, b, (0 : Nat)) ∈
      st.pool ++ blocks.map (fun x => (x.block_id, x, 0)) :=
    List.mem_append.mpr (Or.inr (List.mem_map.mpr ⟨b, hb, rfl⟩))
  simp only [resolvable, poolContains, insertBranch, Bool.or_eq_true]
  exact Or.inl (List.any_eq_true.mpr ⟨(b.block_id, b, 0), hmem, by simp⟩)

/-- Claim C2: `put` is all-or-nothing — on a successful call the whole branch is
inserted at once (every block of the branch is visible afterwards), and on any
failing call the engine state is exactly the state before the call, so none of
the branch's blocks become visible. -/
theorem C2_put_all_or_nothing (st : EngineState) (branch : List Block) :
    (∀ st', BlockManager.put st branch = (Except.ok (), st') →
      st' = insertBranch st branch ∧
      ∀ b ∈ branch, resolvable st' b.block_id = true) ∧
    (∀ e st', BlockManager.put st branch = (Except.error e, st') → st' = st) := by
  have hput : BlockManager.put st branch =
      (execDispatch (checkBranch st branch),
        if checkBranch st branch = ErrorCode.Success
        then insertBranch st branch else st) := by
    unfold BlockManager.put block_manager_put
    rw [parseEntries_putEntries]
    by_cases hc : checkBranch st branch = ErrorCode.Success <;> simp [hc]
  rw [hput]
  by_cases hc : checkBranch st branch = ErrorCode.Success
  · rw [if_pos hc, hc]
    constructor
    · intro st' heq
      have hst : insertBranch st branch = st' := congrArg Prod.snd heq
      refine ⟨hst.symm, fun b hb => ?_⟩
      rw [← hst]
      exact resolvable_insertBranch st branch b hb
    · intro e st' heq
      exact Except.noConfusion (congrArg Prod.fst heq)
  · rw [if_neg hc]
    constructor
    · intro st' heq
      exact absurd ((execDispatch_ok_iff _).mp (congrArg Prod.fst heq)) hc
    · intro e st' heq
      exact (congrArg Prod.snd heq).symm

/-- Witness for C2: putting the genesis branch into the empty engine succeeds and
makes its block visible. -/
theorem C2_put_all_or_nothing_witness :
    resolvable (EngineState.mk [(([1] : Bytes), Block.mk [1] [] [42], 0)] [])
      ([1] : Bytes) = true :=
  ((C2_put_all_or_nothing ⟨[], []⟩ [Block.mk [1] [] [42]]).1
      ⟨[([1], Block.mk [1] [] [42], 0)], []⟩ (by rfl)).2
    (Block.mk [1] [] [42]) (by simp)

/-- Claim C5: blocks cross the engine boundary only as opaque codec-serialized
payloads — `put` marshals exactly one entry per block, in branch order, each
entry holding the `SerializeToString` bytes of its block with the recorded
length equal to the length of those bytes and nothing else; and every element
an iterator yields is the `ParseFromString` of the payload the native cursor
returned. -/
theorem C5_codec_boundary (branch : List Block) (it : BlockIterator)
    (c : NativeCursor) (hptr : it.c_iter_ptr = some c) :
    (putEntries branch).length = branch.length ∧
    (∀ i : Nat, (putEntries branch)[i]? = (branch[i]?).map
      (fun b => PutEntry.mk (serializeToString b) (serializeToString b).length)) ∧
    (∀ b, it.next.1 = Except.ok b →
      ∃ p, (nativeNext c).1 = (ErrorCode.Success, some p) ∧
        blockParseFromString p = some b) := by
  refine ⟨by simp [putEntries], ?_, ?_⟩
  · intro i
    simp [putEntries, PutEntry.new, List.getElem?_map]
  · intro b hnext
    cases hnc : nativeNext c with
    | mk res c2 =>
    cases res with
    | mk rcode vec =>
      simp only [BlockIterator.next, hptr, hnc] at hnext
      cases hd : execDispatch rcode with
      | error e => simp [hd] at hnext
      | ok u =>
        have hrc : rcode = ErrorCode.Success :=
          (execDispatch_ok_iff rcode).mp (by rw [hd])
        cases vec with
        | none => simp [hd] at hnext
        | some payload =>
          cases hp : blockParseFromString payload with
          | none => simp [hd, hp] at hnext
          | some b2 =>
            simp only [hd, hp] at hnext
            have hb2 : b2 = b := by simpa using hnext
            refine ⟨payload, ?_, by rw [hp, hb2]⟩
            rw [hrc]

/-- Witness for C5: a one-block branch marshals to one entry, and a cursor holding
that block yields exactly its codec round-trip. -/
theorem C5_codec_boundary_witness :
    (putEntries [Block.mk [1] [] [2]]).length = 1 ∧
    ∃ p, (nativeNext ⟨[CursorStep.yieldStep (Block.mk [1] [] [2])], false⟩).1 =
        (ErrorCode.Success, some p) ∧
      blockParseFromString p = some (Block.mk [1] [] [2]) :=
  ⟨(C5_codec_boundary [Block.mk [1] [] [2]]
      ⟨some ⟨[CursorStep.yieldStep (Block.mk [1] [] [2])], false⟩⟩
      ⟨[CursorStep.yieldStep (Block.mk [1] [] [2])], false⟩ rfl).1,
   (C5_codec_boundary [Block.mk [1] [] [2]]
      ⟨some ⟨[CursorStep.yieldStep (Block.mk [1] [] [2])], false⟩⟩
      ⟨[CursorStep.yieldStep (Block.mk [1] [] [2])], false⟩ rfl).2.2
     (Block.mk [1] [] [2]) (by rfl)⟩

/-- Claim C6: when the native cursor signals the end of locally known data — the
StopIteration code or a null result vector — the next-element call ends the
sequence with the iterator protocol's StopIteration, not a taxonomy error. -/
theorem C6_end_of_data_stop (it : BlockIterator) (c : NativeCursor)
    (hptr : it.c_iter_ptr = some c) :
    ((nativeNext c).1.1 = ErrorCode.StopIteration →
      it.next.1 = Except.error PyExc.stopIteration) ∧
    ((nativeNext c).1.1 = ErrorCode.Success → (nativeNext c).1.2 = none →
      it.next.1 = Except.error PyExc.stopIteration) := by
  cases hnc : nativeNext c with
  | mk res c2 =>
  cases res with
  | mk rcode vec =>
    constructor
    · intro hcode
      have hc17 : rcode = ErrorCode.StopIteration := hcode
      simp [BlockIterator.next, hptr, hnc, hc17, execDispatch,
        ErrorCode.StopIteration, ErrorCode.Success, ErrorCode.NullPointerProvided]
    · intro hcode hvec
      have hc0 : rcode = ErrorCode.Success := hcode
      have hv : vec = none := hvec
      simp [BlockIterator.next, hptr, hnc, hc0, hv, execDispatch,
        ErrorCode.Success]

/-- Witness for C6: a terminated cursor (StopIteration code) and an exhausted
cursor (null result vector) both end the sequence with StopIteration. -/
theorem C6_end_of_data_stop_witness :
    (BlockIterator.mk (some ⟨[], true⟩)).next.1 =
      Except.error PyExc.stopIteration ∧
    (BlockIterator.mk (some ⟨[], false⟩)).next.1 =
      Except.error PyExc.stopIteration :=
  ⟨(C6_end_of_data_stop ⟨some ⟨[], true⟩⟩ ⟨[], true⟩ rfl).1 (by rfl),
   (C6_end_of_data_stop ⟨some ⟨[], false⟩⟩ ⟨[], false⟩ rfl).2 (by rfl) (by rfl)⟩

theorem next_error_dead (it : BlockIterator) (e : PyExc)
    (h : it.next.1 = Except.error e) : deadIterator it.next.2.1 = true := by
  cases it with
  | mk p =>
    cases p with
    | none => rfl
    | some c =>
      cases c with
      | mk pending term =>
        cases term with
        | true => rfl
        | false =>
          cases pending with
          | nil => rfl
          | cons s rest =>
            cases s with
            | failStep code =>
              cases hd : execDispatch code with
              | error e2 =>
                simp [BlockIterator.next, nativeNext, hd, deadIterator]
              | ok u =>
                simp [BlockIterator.next, nativeNext, hd, deadIterator]
            | yieldStep b =>
              exfalso
              have hok : (BlockIterator.mk
                  (some ⟨CursorStep.yieldStep b :: rest, false⟩)).next.1 =
                  Except.ok b := by
                simp [BlockIterator.next, nativeNext, execDispatch,
                  ErrorCode.Success, parse_serialize]
              rw [hok] at h
              exact Except.noConfusion h

theorem dead_next (it : BlockIterator) (h : deadIterator it = true) :
    it.next.1 = Except.error PyExc.stopIteration ∧
    deadIterator it.next.2.1 = true := by
  cases it with
  | mk p =>
    cases p with
    | none => exact ⟨rfl, rfl⟩
    | some c =>
      cases c with
      | mk pending term =>
        have hterm : term = true := by simpa [deadIterator] using h
        subst hterm
        exact ⟨rfl, rfl⟩

theorem advance_add (it : BlockIterator) (a b : Nat) :
    advance it (a + b) = advance (advance it a) b := by
  induction a generalizing it with
  | zero => rw [Nat.zero_add]; rfl
  | succ a ih =>
    rw [Nat.succ_add]
    show advance it.next.2.1 (a + b) = _
    rw [ih]
    rfl

theorem dead_advance (it : BlockIterator) (h : deadIterator it = true)
    (n : Nat) : deadIterator (advance it n) = true := by
  induction n generalizing it with
  | zero => exact h
  | succ n ih => exact ih it.next.2.1 (dead_next it h).2

/-- Claim C7: a traversal iterator whose next-element call raised an error is
terminated permanently — every later next-element call on the same iterator
fails to yield a block; the failed iterator is never resumed. -/
theorem C7_failed_iterator_permanent (it : BlockIterator) (n m : Nat)
    (e : PyExc) (herr : resultAt it n = Except.error e) (hm : n < m) :
    ∀ b, resultAt it m ≠ Except.ok b := by
  intro b hok
  have hdead : deadIterator (advance it (n + 1)) = true := by
    have hd : deadIterator (advance it n).next.2.1 = true :=
      next_error_dead (advance it n) e herr
    have hsucc : advance it (n + 1) = (advance it n).next.2.1 := by
      rw [advance_add it n 1]
      rfl
    rw [hsucc]
    exact hd
  obtain ⟨k, hk⟩ : ∃ k, m = (n + 1) + k := ⟨m - (n + 1), by omega⟩
  rw [hk] at hok
  have hstop : resultAt it ((n + 1) + k) =
      Except.error PyExc.stopIteration := by
    unfold resultAt
    rw [advance_add]
    exact (dead_next _ (dead_advance _ hdead k)).1
  rw [hstop] at hok
  exact Except.noConfusion hok

/-- Witness for C7: an iterator that failed with the generic error on its first
next call yields nothing on its second. -/
theorem C7_failed_iterator_permanent_witness :
    resultAt ⟨some ⟨[CursorStep.failStep 7], false⟩⟩ 1 ≠
      Except.ok (Block.mk [] [] []) :=
  C7_failed_iterator_permanent ⟨some ⟨[CursorStep.failStep 7], false⟩⟩ 0 1
    (PyExc.exception "There was an unknown error: 7") (by rfl) (by decide)
    (Block.mk [] [] [])

/-- Claim C8: `__iter__` returns the iterator object itself, idempotently, so
iterating a second time continues from the current position instead of
restarting the sequence. -/
theorem C8_iter_returns_self (it : BlockIterator) :
    BlockIterator.iter it = it ∧
    BlockIterator.iter (BlockIterator.iter it) = BlockIterator.iter it ∧
    (BlockIterator.iter it).next = it.next ∧
    (∀ n, resultAt (BlockIterator.iter it) n = resultAt it n) :=
  ⟨rfl, rfl, rfl, fun _ => rfl⟩

/-- Claim C10: the destructor invokes the native cursor drop iff the cursor pointer
is non-null; a construction that failed leaves the pointer null, so such a
cursor is never dropped natively; and a next-element call on a null pointer
raises StopIteration without calling into the native library. -/
theorem C10_null_cursor_guard (it : BlockIterator)
    (nativeNew : Nat × NativeCursor) :
    ((BlockIterator.del it).isSome ↔ it.c_iter_ptr.isSome) ∧
    (nativeNew.1 ≠ ErrorCode.Success →
      (iterInit nativeNew).2.c_iter_ptr = none ∧
      BlockIterator.del (iterInit nativeNew).2 = none) ∧
    (it.c_iter_ptr = none →
      it.next = (Except.error PyExc.stopIteration, it, false)) := by
  refine ⟨?_, ?_, ?_⟩
  · cases it with
    | mk p => cases p <;> simp [BlockIterator.del, nativeDrop]
  · intro hne
    have hex : ∃ e, execDispatch nativeNew.1 = Except.error e := by
      cases hd : execDispatch nativeNew.1 with
      | ok u => exact absurd ((execDispatch_ok_iff _).mp (by rw [hd])) hne
      | error e => exact ⟨e, rfl⟩
    obtain ⟨e, he⟩ := hex
    constructor <;> simp [iterInit, he, BlockIterator.del]
  · intro hn
    have hit : it = ⟨none⟩ := by cases it; simp_all
    rw [hit]
    rfl

/-- Witness for C10: a failed construction (code 1) leaves the pointer null, and
next on a null pointer is StopIteration with no native call. -/
theorem C10_null_cursor_guard_witness :
    (iterInit (1, ⟨[], false⟩)).2.c_iter_ptr = none ∧
    (BlockIterator.mk none).next =
      (Except.error PyExc.stopIteration, BlockIterator.mk none, false) :=
  ⟨((C10_null_cursor_guard ⟨none⟩ (1, ⟨[], false⟩)).2.1 (by decide)).1,
   (C10_null_cursor_guard ⟨none⟩ (1, ⟨[], false⟩)).2.2 rfl⟩

/-- Claim C9: `put` applied to an empty branch fails with MissingInput and leaves
the engine state unchanged. -/
theorem C9_put_empty_missing_input (st : EngineState) :
    (BlockManager.put st []).1 =
      Except.error (PyExc.missingInput "Missing input to put method") ∧
    (BlockManager.put st []).2 = st :=
  ⟨rfl, rfl⟩

end BlockManagerSpec
